import Mathlib

/-!
Verification of the core logic of the amplitude-bulk-annotation-maker
repository: a shallow embedding of `utils/validators.py`, `amplitude_api.py`,
`config_manager.py` and `constants.py`, together with theorems settling the
frozen claims about the specification.

Machine strings are modelled as Lean `String`/`List Char`; Python-specific
behaviours (truthiness of strings and `None`, `str.strip`, `re.split`,
`re.match`, `re.search` on the concrete patterns of `constants.py`) are
modelled explicitly and noted at each definition.  Network effects are
modelled by an explicit oracle giving the outcome of each HTTP request.
-/

namespace AmplitudeSpec

/-! ## `utils/validators.py` -/

/-- One character of the class `[a-zA-Z0-9_-]` used by both
`CHART_ID_PATTERN` and `CHART_URL_PATTERN` in `constants.py`. -/
def isIdChar (c : Char) : Bool :=
  ('a' ≤ c && c ≤ 'z') || ('A' ≤ c && c ≤ 'Z') || ('0' ≤ c && c ≤ '9') ||
    c == '_' || c == '-'

/-- ASCII whitespace as stripped by Python `str.strip()` and matched by the
regex class `\s` (the inputs here are ASCII; the Unicode extras of Python
whitespace are not reachable from the patterns involved). -/
def isPySpace (c : Char) : Bool :=
  c == ' ' || c == '\t' || c == '\n' || c == '\r' || c == '\x0b' || c == '\x0c'

/-- Python `str.strip()` on the character list of a string. -/
def pyStrip (l : List Char) : List Char :=
  ((l.dropWhile isPySpace).reverse.dropWhile isPySpace).reverse

/-- Split a character list at every character satisfying `p`, keeping the
(possibly empty) chunks between separators, as Python `str.split('\n')`
does.  `acc` is the reversed chunk currently being read. -/
def splitBy (p : Char → Bool) : List Char → List Char → List (List Char)
  | acc, [] => [acc.reverse]
  | acc, c :: cs =>
    if p c then acc.reverse :: splitBy p [] cs
    else splitBy p (c :: acc) cs

/-- A separator of the token split `re.split(r'[,\s]+', line)` in
`extract_chart_ids`: a comma or a whitespace character.  Splitting at every
separator (instead of at maximal separator runs as `+` does) only introduces
extra empty chunks, and every chunk is filtered through `if part and
re.match(...)` below, which discards empty chunks either way. -/
def isSep (c : Char) : Bool :=
  c == ',' || isPySpace c

/-- Python `re.match(CHART_ID_PATTERN, s)` with
`CHART_ID_PATTERN = r'^[a-zA-Z0-9_-]{3,}$'` (constants.py line 45), viewed
as a Bool: the whole string is at least three characters of the identifier
class.  Python `$` also matches just before one trailing newline, which the
branch on `getLast?` reproduces. -/
def reMatchIdMin3 (l : List Char) : Bool :=
  if l.getLast? = some '\n' then
    decide (3 ≤ l.dropLast.length) && l.dropLast.all isIdChar
  else
    decide (3 ≤ l.length) && l.all isIdChar

/-- The literal part of `CHART_URL_PATTERN = r'/chart/([a-zA-Z0-9_-]+)'`
(constants.py line 46). -/
def chartMarker : List Char :=
  "/chart/".data

/-- The host marker of the URL branch of `extract_chart_ids`
(`'amplitude.com' in line`). -/
def hostMarker : List Char :=
  "amplitude.com".data

/-- Python `pat in line` substring membership on character lists. -/
def containsSub : List Char → List Char → Bool
  | pat, [] => pat.isEmpty
  | pat, c :: cs => pat.isPrefixOf (c :: cs) || containsSub pat cs

/-- Python `re.search(CHART_URL_PATTERN, line)`: scan left to right for the
first position where `/chart/` is followed by at least one identifier
character, and return the maximal identifier run after it (the capture
group of `/chart/([a-zA-Z0-9_-]+)`). -/
def searchChartCapture : List Char → Option (List Char)
  | [] => none
  | c :: cs =>
    if chartMarker.isPrefixOf (c :: cs) &&
        !(((c :: cs).drop chartMarker.length).takeWhile isIdChar).isEmpty then
      some (((c :: cs).drop chartMarker.length).takeWhile isIdChar)
    else searchChartCapture cs

/-- The URL-branch test of `extract_chart_ids` (validators.py line 47):
`'amplitude.com' in line and '/chart/' in line`. -/
def isUrlLine (l : List Char) : Bool :=
  containsSub hostMarker l && containsSub chartMarker l

/-- The body of the per-line loop of `extract_chart_ids` (validators.py
lines 41-59): strip the line, skip it when blank, take the URL branch when
both markers occur, otherwise split at commas/whitespace and keep the parts
passing `if part and re.match(CHART_ID_PATTERN, part)`.  (The inner
`part.strip()` is the identity here because split parts contain no
whitespace.) -/
def lineCandidates (rawLine : List Char) : List String :=
  if (pyStrip rawLine).isEmpty then []
  else if isUrlLine (pyStrip rawLine) then
    match searchChartCapture (pyStrip rawLine) with
    | some cap => [String.mk cap]
    | none => []
  else
    ((splitBy isSep [] (pyStrip rawLine)).filter
        (fun part => !part.isEmpty && reMatchIdMin3 part)).map String.mk

/-- `extract_chart_ids` (validators.py lines 17-63).  The final
`list(set(chart_ids))` of the source produces the distinct collected
identifiers in an unspecified order; it is modelled by `List.dedup`, which
agrees with it on membership and duplicate-freeness (the only aspects the
claims and the callers rely on). -/
def extract_chart_ids (input_text : String) : List String :=
  if (pyStrip input_text.data).isEmpty then []
  else
    (((splitBy (fun c => c == '\n') [] (pyStrip input_text.data)).map
        lineCandidates).flatten).dedup

/-- `validate_chart_ids` (validators.py lines 66-87): the loop appends each
id to `valid_ids` when `re.match(CHART_ID_PATTERN, chart_id)` holds and to
`invalid_ids` otherwise, preserving input order — a stable partition. -/
def validate_chart_ids (chart_ids : List String) : List String × List String :=
  chart_ids.partition (fun chart_id => reMatchIdMin3 chart_id.data)

/-! ## `constants.py` / `amplitude_api.py` -/

def VALID_REGIONS : List String := ["US", "EU"]

def API_BASE_URL_US : String := "https://amplitude.com"

def API_BASE_URL_EU : String := "https://analytics.eu.amplitude.com"

/-- The state set up by `AmplitudeAPIClient.__init__` (amplitude_api.py
lines 60-96).  The `requests` session, timeout and retry adapter are
transport resources outside the embedding; every request the client makes
targets `urljoin(self.base_url, API_ANNOTATIONS_ENDPOINT)`, so `base_url`
determines the host of all requests. -/
structure AmplitudeAPIClient where
  api_key : String
  secret_key : String
  region : String
  base_url : String

/-- `AmplitudeAPIClient.__init__`: raise `ValueError` when the region is not
in `VALID_REGIONS`, otherwise select the base URL from the region
(amplitude_api.py lines 81-90).  The Python error text renders the list as
`['US', 'EU']` with quotation marks; the quotes are elided here. -/
def clientInit (api_key secret_key region : String) :
    Except String AmplitudeAPIClient :=
  if region ∉ VALID_REGIONS then
    Except.error ("Invalid region: " ++ region ++ ". Must be one of [US, EU]")
  else
    Except.ok
      { api_key := api_key, secret_key := secret_key, region := region,
        base_url := if region = "EU" then API_BASE_URL_EU else API_BASE_URL_US }

/-- The request parameters built by `create_annotation` (amplitude_api.py
lines 193-203): `app_id`, `date` and `label` always; `chart_id` and
`details` only when Python-truthy.  The date is modelled already formatted
(`annotation_date.strftime("%Y-%m-%d")`). -/
structure AnnotationParams where
  app_id : Int
  date : String
  label : String
  chart_id : Option String
  details : Option String
deriving DecidableEq

/-- Python truthiness of an `Optional[str]`: `None` and `""` are falsy. -/
def pyTruthy : Option String → Bool
  | none => false
  | some s => if s = "" then false else true

/-- The parameter-building prefix of `create_annotation`: `params` starts
with `app_id`/`date`/`label`; `chart_id` is added under `if chart_id:` and
`details` under `if details:`. -/
def buildParams (project_id : Int) (dateStr label details : String)
    (chart_id : Option String) : AnnotationParams :=
  { app_id := project_id, date := dateStr, label := label,
    chart_id := if pyTruthy chart_id then chart_id else none,
    details := if details = "" then none else some details }

/-- The outcome of one `session.post` as `create_annotation` observes it:
a response with its status code, the `success` flag and
`annotation.id` field of its parsed JSON body, and its text; or one of the
exceptions the code catches.  A 200 body whose JSON parsing itself raises
falls under `otherExc` via the final generic `except` clause. -/
inductive HttpOutcome where
  | response (status : Nat) (jsonSuccess : Bool) (annotationId : Option String)
      (text : String)
  | timeout
  | connError
  | otherExc (msg : String)

/-- The response handling of `create_annotation` (amplitude_api.py lines
205-237).  `Except.ok` is the returned `(success, message)` tuple;
`Except.error` is the raised `AmplitudeAuthenticationError` (re-raised by
the `except AmplitudeAPIError: raise` clause), carrying its message. -/
def create_annotation_outcome : HttpOutcome → Except String (Bool × String)
  | HttpOutcome.response status jsonSuccess annotationId text =>
    if status = 200 then
      if jsonSuccess then
        Except.ok (true, "Annotation created: " ++ annotationId.getD "Unknown")
      else
        Except.ok (false, "API returned success=false")
    else if status = 401 then
      Except.error "Authentication failed"
    else
      Except.ok (false, "HTTP " ++ Nat.repr status ++ ": " ++ text)
  | HttpOutcome.timeout => Except.ok (false, "Request timeout")
  | HttpOutcome.connError => Except.ok (false, "Connection error")
  | HttpOutcome.otherExc msg => Except.ok (false, "Error: " ++ msg)

/-- `create_annotation` (amplitude_api.py lines 169-237): build the
parameters, perform the POST — modelled by the network oracle `net` mapping
the request parameters to the observed outcome — and classify the result. -/
def create_annotation (project_id : Int) (dateStr label details : String)
    (chart_id : Option String) (net : AnnotationParams → HttpOutcome) :
    Except String (Bool × String) :=
  create_annotation_outcome (net (buildParams project_id dateStr label details chart_id))

/-- What one iteration of the `bulk_annotate` loop observes of its
`create_annotation` call: a returned `(success, message)` tuple, a raised
`AmplitudeAuthenticationError`, or any other raised exception (whose
`str(e)` is `msg`). -/
inductive CallOutcome where
  | ret (success : Bool) (message : String)
  | authRaise
  | otherRaise (msg : String)
deriving DecidableEq

def CallOutcome.isRet : CallOutcome → Bool
  | CallOutcome.ret _ _ => true
  | _ => false

/-- The observable trace of one `bulk_annotate` run: the returned `results`
list, the arguments of the `progress_callback(i + 1, total)` invocations in
order, and the chart ids for which `create_annotation` was invoked. -/
structure BulkTrace where
  results : List (String × Bool × String)
  progressCalls : List (Nat × Nat)
  attempted : List String
deriving DecidableEq

/-- The `for i, chart_id in enumerate(chart_ids)` loop of `bulk_annotate`
(amplitude_api.py lines 267-289), from iteration index `i`.  The per-call
outcomes are given by the oracle `call`, indexed by iteration because the
external world evolves between requests.  On a returned tuple the result is
appended and the progress callback invoked with `(i + 1, total)`; on
`AmplitudeAuthenticationError` one failure result is appended and the loop
`break`s; on any other exception a failure result is appended and the loop
continues. -/
def bulkGo (call : Nat → String → CallOutcome) (total : Nat) :
    Nat → List String → BulkTrace
  | _, [] => { results := [], progressCalls := [], attempted := [] }
  | i, chart_id :: rest =>
    match call i chart_id with
    | CallOutcome.ret success message =>
      let t := bulkGo call total (i + 1) rest
      { results := (chart_id, success, message) :: t.results,
        progressCalls := (i + 1, total) :: t.progressCalls,
        attempted := chart_id :: t.attempted }
    | CallOutcome.authRaise =>
      { results := [(chart_id, false, "Authentication failed")],
        progressCalls := [], attempted := [chart_id] }
    | CallOutcome.otherRaise msg =>
      let t := bulkGo call total (i + 1) rest
      { results := (chart_id, false, msg) :: t.results,
        progressCalls := t.progressCalls,
        attempted := chart_id :: t.attempted }

/-- `bulk_annotate` (amplitude_api.py lines 239-294): run the loop over the
whole chart-id list with `total = len(chart_ids)`, starting at index 0.
`project_id`, date, label and details are fixed across iterations and are
absorbed into the oracle `call`. -/
def bulk_annotate (call : Nat → String → CallOutcome)
    (chart_ids : List String) : BulkTrace :=
  bulkGo call chart_ids.length 0 chart_ids

/-! ## `config_manager.py` -/

/-- `ConfigManager.save_preferences` (config_manager.py lines 140-164),
returning the key/value pairs of the `prefs` dict serialized to the
preference file: always `region`, plus `project_id` exactly when the
argument is truthy and `os.getenv(ENV_PROJECT_ID)` is falsy. -/
def save_preferences (region : String) (project_id : Option String)
    (envProjectId : Option String) : List (String × String) :=
  if pyTruthy project_id && !(pyTruthy envProjectId) then
    [("region", region)] ++ [("project_id", project_id.getD "")]
  else
    [("region", region)]

/-- The ambient state of a run that saves preferences: the credentials held
by the application, the chosen region and project id, and the
`AMPLITUDE_PROJECT_ID` environment variable. -/
structure AppEnv where
  api_key : String
  secret_key : String
  region : String
  project_id : Option String
  envProjectId : Option String

/-- A preference-saving run: `save_preferences(region, project_id)` reads
nothing of the state but the region, the project id and the environment
variable — in particular neither credential. -/
def savePreferencesRun (st : AppEnv) : List (String × String) :=
  save_preferences st.region st.project_id st.envProjectId

/-! ## Concrete oracles used by witnesses -/

/-- A bulk-run oracle whose third call (index 2) raises
`AmplitudeAuthenticationError` and whose other calls succeed. -/
def callAuthAt2 : Nat → String → CallOutcome :=
  fun i _ => if i = 2 then CallOutcome.authRaise else CallOutcome.ret true "ok"

/-- A bulk-run oracle all of whose calls return successfully. -/
def callAllOk : Nat → String → CallOutcome :=
  fun _ chart_id => CallOutcome.ret true ("done " ++ chart_id)

/-! ## Helper lemmas -/

/-- Every chunk produced by `splitBy` is free of separator characters,
provided the accumulator is. -/
theorem splitBy_chunks_all (p : Char → Bool) :
    ∀ (l acc : List Char), acc.all (fun c => !p c) = true →
      ∀ chunk ∈ splitBy p acc l, chunk.all (fun c => !p c) = true := by
  intro l
  induction l with
  | nil =>
    intro acc hacc chunk hchunk
    simp only [splitBy, List.mem_singleton] at hchunk
    subst hchunk
    simpa [List.all_reverse] using hacc
  | cons c cs ih =>
    intro acc hacc chunk hchunk
    by_cases hc : p c = true
    · simp only [splitBy, hc, if_true, List.mem_cons] at hchunk
      rcases hchunk with h | h
      · subst h
        simpa [List.all_reverse] using hacc
      · exact ih [] rfl chunk h
    · have hc' : p c = false := by simpa using hc
      simp only [splitBy, hc', Bool.false_eq_true, if_false] at hchunk
      refine ih (c :: acc) ?_ chunk hchunk
      simp [hacc, hc']

/-- On a separator-free list, `splitBy` returns a single chunk. -/
theorem splitBy_no_sep (p : Char → Bool) :
    ∀ (l : List Char), l.all (fun c => !p c) = true →
      ∀ acc, splitBy p acc l = [acc.reverse ++ l] := by
  intro l
  induction l with
  | nil => intro _ acc; simp [splitBy]
  | cons c cs ih =>
    intro h acc
    have hc : p c = false := by
      have := List.all_eq_true.mp h c (by simp)
      simpa using this
    have hcs : cs.all (fun c => !p c) = true := by
      rw [List.all_eq_true] at h ⊢
      intro x hx
      exact h x (by simp [hx])
    simp only [splitBy, hc, Bool.false_eq_true, if_false]
    rw [ih hcs (c :: acc)]
    simp

/-- A successful `re.search(CHART_URL_PATTERN, line)` capture is a nonempty
run of identifier characters. -/
theorem searchChartCapture_spec :
    ∀ (l cap : List Char), searchChartCapture l = some cap →
      cap ≠ [] ∧ cap.all isIdChar = true := by
  intro l
  induction l with
  | nil => intro cap h; simp [searchChartCapture] at h
  | cons c cs ih =>
    intro cap h
    simp only [searchChartCapture] at h
    split at h
    · rename_i hcond
      injection h with h
      subst h
      rw [Bool.and_eq_true] at hcond
      obtain ⟨-, hne⟩ := hcond
      constructor
      · intro hnil
        rw [hnil] at hne
        simp at hne
      · rw [List.all_eq_true]
        intro x hx
        exact List.mem_takeWhile_imp hx
    · exact ih cap h

/-- Without a trailing newline, `re.match(CHART_ID_PATTERN, ·)` is just
"at least three characters, all in the identifier class". -/
theorem reMatchIdMin3_no_newline (l : List Char) (h : '\n' ∉ l) :
    reMatchIdMin3 l = (decide (3 ≤ l.length) && l.all isIdChar) := by
  unfold reMatchIdMin3
  rw [if_neg]
  intro hc
  exact h (List.mem_of_getLast?_eq_some hc)

/-- Every string collected by the per-line loop is a nonempty run of
identifier characters. -/
theorem mem_lineCandidates_spec (raw : List Char) (tok : String)
    (h : tok ∈ lineCandidates raw) :
    tok.data ≠ [] ∧ tok.data.all isIdChar = true := by
  unfold lineCandidates at h
  split at h
  · simp at h
  · split at h
    · split at h
      · rename_i cap hcap
        simp only [List.mem_singleton] at h
        subst h
        exact searchChartCapture_spec _ cap hcap
      · simp at h
    · rcases List.mem_map.mp h with ⟨part, hpart, rfl⟩
      rcases List.mem_filter.mp hpart with ⟨hmem, hcond⟩
      have hsep : part.all (fun c => !isSep c) = true :=
        splitBy_chunks_all isSep (pyStrip raw) [] rfl part hmem
      have hnl : '\n' ∉ part := by
        intro hin
        have := List.all_eq_true.mp hsep _ hin
        simp [isSep, isPySpace] at this
      rw [reMatchIdMin3_no_newline part hnl] at hcond
      rw [Bool.and_eq_true, Bool.and_eq_true] at hcond
      obtain ⟨-, hlen, hall⟩ := hcond
      show part ≠ [] ∧ part.all isIdChar = true
      refine ⟨?_, hall⟩
      intro hnil
      rw [hnil] at hlen
      simp at hlen

/-- For an input that is a single already-stripped line with no newline,
membership in `extract_chart_ids` is membership in the line's candidates. -/
theorem mem_extract_single_line (line : String)
    (hstrip : pyStrip line.data = line.data)
    (hnl : '\n' ∉ line.data)
    (hne : line.data ≠ []) :
    ∀ tok, tok ∈ extract_chart_ids line ↔ tok ∈ lineCandidates line.data := by
  intro tok
  have hall : line.data.all (fun c => !(c == '\n')) = true := by
    rw [List.all_eq_true]
    intro x hx
    have hx' : x ≠ '\n' := fun he => hnl (he ▸ hx)
    simp [hx']
  unfold extract_chart_ids
  rw [hstrip]
  rw [if_neg (by simp [List.isEmpty_iff, hne])]
  rw [splitBy_no_sep _ _ hall []]
  simp [List.mem_dedup]

/-- The bulk loop from index `i`, when every call returns a tuple: one
result per chart in order, and one progress invocation `(i + j + 1, total)`
per chart. -/
theorem bulkGo_allRet (call : Nat → String → CallOutcome) (total : Nat) :
    ∀ (l : List String) (i : Nat),
      (∀ j, j < l.length → (call (i + j) (l.getD j "")).isRet = true) →
      (bulkGo call total i l).results.map Prod.fst = l ∧
      (bulkGo call total i l).results.length = l.length ∧
      (bulkGo call total i l).progressCalls =
        (List.range l.length).map (fun j => (i + j + 1, total)) := by
  intro l
  induction l with
  | nil => intro i _; exact ⟨rfl, rfl, rfl⟩
  | cons cid rest ih =>
    intro i h
    have h0 : (call i cid).isRet = true := by
      have := h 0 (by simp)
      simpa using this
    obtain ⟨s, m, hc⟩ : ∃ s m, call i cid = CallOutcome.ret s m := by
      cases hcase : call i cid with
      | ret s m => exact ⟨s, m, rfl⟩
      | authRaise => rw [hcase] at h0; simp [CallOutcome.isRet] at h0
      | otherRaise msg => rw [hcase] at h0; simp [CallOutcome.isRet] at h0
    have hrest : ∀ j, j < rest.length →
        (call (i + 1 + j) (rest.getD j "")).isRet = true := by
      intro j hj
      have := h (j + 1) (by simpa using Nat.succ_lt_succ hj)
      rw [List.getD_cons_succ] at this
      have harith : i + (j + 1) = i + 1 + j := by omega
      rwa [harith] at this
    obtain ⟨ih1, ih2, ih3⟩ := ih (i + 1) hrest
    simp only [bulkGo, hc]
    refine ⟨by simp [ih1], by simp [ih2], ?_⟩
    rw [ih3, List.length_cons, List.range_succ_eq_map, List.map_cons,
      List.map_map]
    refine List.cons_eq_cons.mpr ⟨rfl, ?_⟩
    apply List.map_congr_left
    intro a _
    simp only [Function.comp_apply, Prod.mk.injEq]
    exact ⟨by omega, trivial⟩

/-- The bulk loop from index `i`, when the first authentication error is at
relative position `k`: exactly `k + 1` results, the last of which is the
authentication failure for chart `k`, and exactly charts `0..k` attempted. -/
theorem bulkGo_authStop (call : Nat → String → CallOutcome) (total : Nat) :
    ∀ (l : List String) (k i : Nat), k < l.length →
      (∀ j, j < k → call (i + j) (l.getD j "") ≠ CallOutcome.authRaise) →
      call (i + k) (l.getD k "") = CallOutcome.authRaise →
      (bulkGo call total i l).results.length = k + 1 ∧
      (bulkGo call total i l).results.drop k =
        [(l.getD k "", false, "Authentication failed")] ∧
      (bulkGo call total i l).attempted = l.take (k + 1) := by
  intro l
  induction l with
  | nil => intro k i hk; simp at hk
  | cons cid rest ih =>
    intro k i hk hbefore hauth
    cases k with
    | zero =>
      have hc : call i cid = CallOutcome.authRaise := by simpa using hauth
      simp only [bulkGo, hc]
      exact ⟨rfl, rfl, rfl⟩
    | succ k =>
      have h0 : call i cid ≠ CallOutcome.authRaise := by
        have := hbefore 0 (Nat.succ_pos k)
        simpa using this
      have hbefore2 : ∀ j, j < k →
          call (i + 1 + j) (rest.getD j "") ≠ CallOutcome.authRaise := by
        intro j hj
        have := hbefore (j + 1) (by omega)
        rw [List.getD_cons_succ] at this
        have harith : i + (j + 1) = i + 1 + j := by omega
        rwa [harith] at this
      have hauth2 : call (i + 1 + k) (rest.getD k "") = CallOutcome.authRaise := by
        rw [List.getD_cons_succ] at hauth
        have harith : i + (k + 1) = i + 1 + k := by omega
        rwa [harith] at hauth
      have hk2 : k < rest.length := by
        simpa using Nat.lt_of_succ_lt_succ hk
      obtain ⟨ih1, ih2, ih3⟩ := ih k (i + 1) hk2 hbefore2 hauth2
      cases hc : call i cid with
      | ret s m =>
        simp only [bulkGo, hc]
        refine ⟨by simp [ih1], ?_, ?_⟩
        · rw [List.drop_succ_cons, List.getD_cons_succ]
          exact ih2
        · rw [List.take_succ_cons]
          simp [ih3]
      | authRaise => exact absurd hc h0
      | otherRaise msg =>
        simp only [bulkGo, hc]
        refine ⟨by simp [ih1], ?_, ?_⟩
        · rw [List.drop_succ_cons, List.getD_cons_succ]
          exact ih2
        · rw [List.take_succ_cons]
          simp [ih3]

/-! ## Claim theorems -/

/-- C1: if `create_annotation` raises the authentication-error kind on the
chart at (0-based) index `k` and on no earlier chart, `bulk_annotate`
returns exactly `k + 1` results, the last being the failure result
`(chart, false, "Authentication failed")` for that chart, and
`create_annotation` is called exactly for charts `0..k` — no chart after
the `k`-th is attempted. -/
theorem C1_bulk_auth_stops_run :
    ∀ (call : Nat → String → CallOutcome) (chart_ids : List String) (k : Nat),
      k < chart_ids.length →
      (∀ j, j < k → call j (chart_ids.getD j "") ≠ CallOutcome.authRaise) →
      call k (chart_ids.getD k "") = CallOutcome.authRaise →
      (bulk_annotate call chart_ids).results.length = k + 1 ∧
      (bulk_annotate call chart_ids).results.drop k =
        [(chart_ids.getD k "", false, "Authentication failed")] ∧
      (bulk_annotate call chart_ids).attempted = chart_ids.take (k + 1) := by
  intro call chart_ids k hk hbefore hauth
  exact bulkGo_authStop call chart_ids.length chart_ids k 0 hk
    (fun j hj => by rw [Nat.zero_add]; exact hbefore j hj)
    (by rw [Nat.zero_add]; exact hauth)

/-- C1 witness: an authentication error on the 3rd of 5 charts yields
exactly 3 results ending in the authentication failure, and charts 4-5 are
never attempted. -/
theorem C1_bulk_auth_stops_run_witness :
    (bulk_annotate callAuthAt2 ["c1", "c2", "c3", "c4", "c5"]).results.length = 3 ∧
    (bulk_annotate callAuthAt2 ["c1", "c2", "c3", "c4", "c5"]).results.drop 2 =
      [("c3", false, "Authentication failed")] ∧
    (bulk_annotate callAuthAt2 ["c1", "c2", "c3", "c4", "c5"]).attempted =
      ["c1", "c2", "c3"] :=
  C1_bulk_auth_stops_run callAuthAt2 ["c1", "c2", "c3", "c4", "c5"] 2
    (by decide) (by decide) (by decide)

/-- C2: a bulk run in which every `create_annotation` call returns (no call
raises) produces exactly one result per input chart, in input order, the
`i`-th result carrying the `i`-th chart id, and invokes the progress
callback after each chart with `(charts completed so far, total)`. -/
theorem C2_bulk_success_shape :
    ∀ (call : Nat → String → CallOutcome) (chart_ids : List String),
      (∀ j, j < chart_ids.length → (call j (chart_ids.getD j "")).isRet = true) →
      (bulk_annotate call chart_ids).results.length = chart_ids.length ∧
      (bulk_annotate call chart_ids).results.map Prod.fst = chart_ids ∧
      (bulk_annotate call chart_ids).progressCalls =
        (List.range chart_ids.length).map (fun j => (j + 1, chart_ids.length)) := by
  intro call chart_ids h
  obtain ⟨h1, h2, h3⟩ := bulkGo_allRet call chart_ids.length chart_ids 0
    (fun j hj => by rw [Nat.zero_add]; exact h j hj)
  refine ⟨h2, h1, ?_⟩
  unfold bulk_annotate
  rw [h3]
  apply List.map_congr_left
  intro a _
  simp only [Prod.mk.injEq]
  exact ⟨by omega, trivial⟩

/-- C2 witness: a fully successful run over two charts gives two results in
order and progress calls (1, 2), (2, 2). -/
theorem C2_bulk_success_shape_witness :
    (bulk_annotate callAllOk ["a1", "b2"]).results.length = 2 ∧
    (bulk_annotate callAllOk ["a1", "b2"]).results.map Prod.fst = ["a1", "b2"] ∧
    (bulk_annotate callAllOk ["a1", "b2"]).progressCalls = [(1, 2), (2, 2)] :=
  C2_bulk_success_shape callAllOk ["a1", "b2"] (by decide)

/-- C3 counterexample: the claimed example fails on the code.  The URL
branch requires the substring `amplitude.com` in the line; the host
`app.x.com` does not contain it, so the line falls to the direct-token
branch, where the full URL fails `CHART_ID_PATTERN` and nothing at all is
extracted — in particular not `ez25o7zy`. -/
theorem C3_counterexample_host_marker :
    "ez25o7zy" ∉ extract_chart_ids "https://app.x.com/analytics/demo/chart/ez25o7zy" := by
  decide

/-- C3 (amended): for every single-line input (already stripped, no
newline) containing the host marker `amplitude.com` and a `/chart/` segment
followed by at least one identifier character, `extract_chart_ids` returns
the identifier captured by `/chart/([a-zA-Z0-9_-]+)`. -/
theorem C3_url_extraction :
    ∀ (line : String) (cap : List Char),
      pyStrip line.data = line.data →
      Char.ofNat 10 ∉ line.data →
      isUrlLine line.data = true →
      searchChartCapture line.data = some cap →
      String.mk cap ∈ extract_chart_ids line := by
  intro line cap hstrip hnl hurl hcap
  have hnl' : '\n' ∉ line.data := hnl
  have hne : line.data ≠ [] := by
    intro h0
    rw [h0] at hurl
    exact absurd hurl (by decide)
  rw [mem_extract_single_line line hstrip hnl' hne]
  unfold lineCandidates
  rw [hstrip]
  rw [if_neg (by simp [List.isEmpty_iff, hne]), if_pos hurl, hcap]
  simp

/-- C3 witness: the amended example, with an `amplitude.com` host. -/
theorem C3_url_extraction_witness :
    "ez25o7zy" ∈
      extract_chart_ids "https://app.amplitude.com/analytics/demo/chart/ez25o7zy" :=
  C3_url_extraction "https://app.amplitude.com/analytics/demo/chart/ez25o7zy"
    ("ez25o7zy".data) (by decide) (by decide) (by decide) (by decide)

/-- C4 counterexample: the claimed kept-token pattern fails on the code.
The token `ab` matches `^[a-zA-Z0-9_-]+$`, yet the direct-token branch
filters with `CHART_ID_PATTERN = ^[a-zA-Z0-9_-]{3,}$`, so the two-character
token is discarded and nothing is extracted from the input `ab`. -/
theorem C4_counterexample_short_token :
    "ab" ∉ extract_chart_ids "ab" := by
  decide

/-- C4 (amended): for every non-blank single-line input (already stripped,
no newline) that is not treated as a URL, the line is split at commas and
whitespace and a resulting token is kept as a candidate exactly when it
matches `CHART_ID_PATTERN = ^[a-zA-Z0-9_-]{3,}$`, i.e. has at least three
characters, all in the identifier class — so a one- or two-character token
is discarded. -/
theorem C4_direct_token_filter :
    ∀ (line : String) (tok : List Char),
      pyStrip line.data = line.data →
      Char.ofNat 10 ∉ line.data →
      line.data ≠ [] →
      isUrlLine line.data = false →
      tok ∈ splitBy isSep [] line.data →
      (String.mk tok ∈ extract_chart_ids line ↔
        3 ≤ tok.length ∧ tok.all isIdChar = true) := by
  intro line tok hstrip hnl hne hurl htok
  have hnl' : '\n' ∉ line.data := hnl
  rw [mem_extract_single_line line hstrip hnl' hne]
  unfold lineCandidates
  rw [hstrip]
  rw [if_neg (by simp [List.isEmpty_iff, hne]),
    if_neg (by simp [hurl])]
  have hsep : tok.all (fun c => !isSep c) = true :=
    splitBy_chunks_all isSep line.data [] rfl tok htok
  have htnl : '\n' ∉ tok := by
    intro hin
    have := List.all_eq_true.mp hsep _ hin
    simp [isSep, isPySpace] at this
  constructor
  · intro hmem
    rcases List.mem_map.mp hmem with ⟨part, hpart, heq⟩
    have hpt : part = tok := by
      have := congrArg String.data heq
      simpa using this
    subst hpt
    rcases List.mem_filter.mp hpart with ⟨-, hcond⟩
    rw [reMatchIdMin3_no_newline part htnl, Bool.and_eq_true,
      Bool.and_eq_true] at hcond
    obtain ⟨-, hlen, hall⟩ := hcond
    exact ⟨by exact_mod_cast of_decide_eq_true hlen, hall⟩
  · intro ⟨hlen, hall⟩
    apply List.mem_map_of_mem
    rw [List.mem_filter]
    refine ⟨htok, ?_⟩
    rw [reMatchIdMin3_no_newline tok htnl, Bool.and_eq_true, Bool.and_eq_true]
    refine ⟨?_, decide_eq_true hlen, hall⟩
    have : tok ≠ [] := by
      intro h0
      rw [h0] at hlen
      simp at hlen
    simp [List.isEmpty_iff, this]

/-- C4 witness: on the line `ab cd-E_9 xy`, the token `cd-E_9` (length 6)
is kept while a two-character token like `ab` fails the length bound. -/
theorem C4_direct_token_filter_witness :
    ("cd-E_9" ∈ extract_chart_ids "ab cd-E_9 xy" ↔
      3 ≤ "cd-E_9".data.length ∧ "cd-E_9".data.all isIdChar = true) ∧
    ("ab" ∈ extract_chart_ids "ab cd-E_9 xy" ↔
      3 ≤ "ab".data.length ∧ "ab".data.all isIdChar = true) :=
  ⟨C4_direct_token_filter "ab cd-E_9 xy" ("cd-E_9".data) (by decide) (by decide)
      (by decide) (by decide) (by decide),
   C4_direct_token_filter "ab cd-E_9 xy" ("ab".data) (by decide) (by decide)
      (by decide) (by decide) (by decide)⟩

/-- C5: `create_annotation` returns a non-exception failure pair on HTTP
200 with `success=false`; raises the distinguishable authentication error
on HTTP 401; returns a failure pair carrying status code and response body
on any other status; returns failure pairs (not exceptions) on timeout and
connection errors; and the authentication-error kind is the only exception
it raises. -/
theorem C5_create_annotation_error_policy :
    (∀ aid text, create_annotation_outcome
        (HttpOutcome.response 200 false aid text) =
      Except.ok (false, "API returned success=false")) ∧
    (∀ js aid text, create_annotation_outcome
        (HttpOutcome.response 401 js aid text) =
      Except.error "Authentication failed") ∧
    (∀ s js aid text, s ≠ 200 → s ≠ 401 → create_annotation_outcome
        (HttpOutcome.response s js aid text) =
      Except.ok (false, "HTTP " ++ Nat.repr s ++ ": " ++ text)) ∧
    create_annotation_outcome HttpOutcome.timeout =
      Except.ok (false, "Request timeout") ∧
    create_annotation_outcome HttpOutcome.connError =
      Except.ok (false, "Connection error") ∧
    (∀ o m, create_annotation_outcome o = Except.error m →
      ∃ js aid text, o = HttpOutcome.response 401 js aid text ∧
        m = "Authentication failed") := by
  refine ⟨fun aid text => rfl, fun js aid text => rfl, ?_, rfl, rfl, ?_⟩
  · intro s js aid text h200 h401
    simp only [create_annotation_outcome]
    rw [if_neg h200, if_neg h401]
  · intro o m h
    cases o with
    | response s js aid text =>
      simp only [create_annotation_outcome] at h
      split at h
      · split at h <;> exact Except.noConfusion h
      · split at h
        · rename_i hs
          injection h with h
          exact ⟨js, aid, text, by rw [hs], h.symm⟩
        · exact Except.noConfusion h
    | timeout => exact Except.noConfusion h
    | connError => exact Except.noConfusion h
    | otherExc msg => exact Except.noConfusion h

/-- C5 witness: a concrete non-200/401 status yields the failure pair with
status and body, and a concrete 401 response is the error case. -/
theorem C5_create_annotation_error_policy_witness :
    create_annotation_outcome (HttpOutcome.response 503 true none "Service Unavailable") =
      Except.ok (false, "HTTP 503: Service Unavailable") ∧
    (∃ js aid text,
      HttpOutcome.response 401 true none "denied" =
        HttpOutcome.response 401 js aid text ∧
      "Authentication failed" = "Authentication failed") :=
  ⟨C5_create_annotation_error_policy.2.2.1 503 true none "Service Unavailable"
      (by decide) (by decide),
   C5_create_annotation_error_policy.2.2.2.2.2
      (HttpOutcome.response 401 true none "denied") "Authentication failed" rfl⟩

/-- C6: every string extracted by `extract_chart_ids` is a nonempty run of
characters of the class `[a-zA-Z0-9_-]` (so it matches
`^[a-zA-Z0-9_-]+$`), and the returned list contains no duplicates. -/
theorem C6_extract_sound_and_deduplicated :
    ∀ (input : String),
      (∀ tok ∈ extract_chart_ids input,
        tok.data ≠ [] ∧ tok.data.all isIdChar = true) ∧
      (extract_chart_ids input).Nodup := by
  intro input
  constructor
  · intro tok htok
    unfold extract_chart_ids at htok
    split at htok
    · simp at htok
    · rw [List.mem_dedup, List.mem_flatten] at htok
      rcases htok with ⟨l, hl, hmem⟩
      rcases List.mem_map.mp hl with ⟨raw, -, rfl⟩
      exact mem_lineCandidates_spec raw tok hmem
  · unfold extract_chart_ids
    split
    · exact List.nodup_nil
    · exact List.nodup_dedup _

/-- C6 witness: on an input repeating `abc123`, the extracted string is a
nonempty identifier run and the result has no duplicates. -/
theorem C6_extract_sound_and_deduplicated_witness :
    ("abc123" ∈ extract_chart_ids "abc123 abc123" ∧
      "abc123".data ≠ [] ∧ "abc123".data.all isIdChar = true) ∧
    (extract_chart_ids "abc123 abc123").Nodup :=
  ⟨⟨by decide,
    (C6_extract_sound_and_deduplicated "abc123 abc123").1 "abc123" (by decide)⟩,
   (C6_extract_sound_and_deduplicated "abc123 abc123").2⟩

/-- C7: `validate_chart_ids` is a stable partition: both outputs are
subsequences of the input (input order), the occurrences of every candidate
are split exactly between the two outputs, a candidate lands in the valid
output iff it matches `CHART_ID_PATTERN` and in the invalid output iff it
does not; and the spec's example evaluates as claimed. -/
theorem C7_validate_stable_partition :
    ∀ (chart_ids : List String),
      (validate_chart_ids chart_ids).1.Sublist chart_ids ∧
      (validate_chart_ids chart_ids).2.Sublist chart_ids ∧
      (∀ x, List.count x (validate_chart_ids chart_ids).1 +
          List.count x (validate_chart_ids chart_ids).2 =
            List.count x chart_ids) ∧
      (∀ x ∈ chart_ids,
        (x ∈ (validate_chart_ids chart_ids).1 ↔ reMatchIdMin3 x.data = true) ∧
        (x ∈ (validate_chart_ids chart_ids).2 ↔ reMatchIdMin3 x.data = false)) ∧
      validate_chart_ids ["ab", "abc", "a-b_C9"] = (["abc", "a-b_C9"], ["ab"]) := by
  intro chart_ids
  unfold validate_chart_ids
  rw [List.partition_eq_filter_filter]
  dsimp only
  refine ⟨List.filter_sublist _, List.filter_sublist _, ?_, ?_, by decide⟩
  · intro x
    set p : String → Bool := fun chart_id => reMatchIdMin3 chart_id.data with hpd
    by_cases hp : p x = true
    · rw [List.count_filter hp]
      have hz : List.count x (List.filter (not ∘ p) chart_ids) = 0 := by
        apply List.count_eq_zero_of_not_mem
        intro hmem
        rcases List.mem_filter.mp hmem with ⟨-, hcond⟩
        simp [Function.comp, hp] at hcond
      omega
    · have hp2 : (not ∘ p) x = true := by
        simp [Function.comp]
        simpa using hp
      rw [List.count_filter hp2]
      have hz : List.count x (List.filter p chart_ids) = 0 := by
        apply List.count_eq_zero_of_not_mem
        intro hmem
        rcases List.mem_filter.mp hmem with ⟨-, hcond⟩
        exact hp hcond
      omega
  · intro x hx
    constructor
    · rw [List.mem_filter]
      constructor
      · rintro ⟨-, hc⟩; exact hc
      · intro hc; exact ⟨hx, hc⟩
    · rw [List.mem_filter]
      constructor
      · rintro ⟨-, hc⟩
        simpa using hc
      · intro hc
        refine ⟨hx, ?_⟩
        simp [Function.comp, hc]

/-- C7 witness: the example list, with membership classified through the
pattern on both sides of the partition. -/
theorem C7_validate_stable_partition_witness :
    ("abc" ∈ (validate_chart_ids ["ab", "abc", "a-b_C9"]).1 ↔
      reMatchIdMin3 "abc".data = true) ∧
    ("ab" ∈ (validate_chart_ids ["ab", "abc", "a-b_C9"]).2 ↔
      reMatchIdMin3 "ab".data = false) :=
  ⟨((C7_validate_stable_partition ["ab", "abc", "a-b_C9"]).2.2.2.1 "abc"
      (by decide)).1,
   ((C7_validate_stable_partition ["ab", "abc", "a-b_C9"]).2.2.2.1 "ab"
      (by decide)).2⟩

/-- C8: constructing the client with a region outside `VALID_REGIONS`
fails with a configuration error (no client, hence no request, exists);
region `EU` selects the EU base URL and region `US` the US base URL — the
URL against which every request of the client is issued. -/
theorem C8_region_selects_base_url :
    ∀ (ak sk r : String),
      (r ∉ VALID_REGIONS → clientInit ak sk r =
        Except.error ("Invalid region: " ++ r ++ ". Must be one of [US, EU]")) ∧
      clientInit ak sk "EU" = Except.ok ⟨ak, sk, "EU", API_BASE_URL_EU⟩ ∧
      clientInit ak sk "US" = Except.ok ⟨ak, sk, "US", API_BASE_URL_US⟩ ∧
      API_BASE_URL_EU = "https://analytics.eu.amplitude.com" ∧
      API_BASE_URL_US = "https://amplitude.com" := by
  intro ak sk r
  refine ⟨?_, rfl, rfl, rfl, rfl⟩
  intro h
  unfold clientInit
  rw [if_pos h]

/-- C8 witness: an out-of-set region is rejected at construction. -/
theorem C8_region_selects_base_url_witness :
    clientInit "k" "s" "MARS" =
      Except.error "Invalid region: MARS. Must be one of [US, EU]" :=
  (C8_region_selects_base_url "k" "s" "MARS").1 (by decide)

/-- C9: the data written by the preference-saving operation consists of the
`region` key and, exactly when the project id is supplied (truthy) and not
environment-sourced, the `project_id` key — never the api_key or
secret_key; and the written content is identical for any two runs that
differ only in the credential values. -/
theorem C9_preferences_credential_noninterference :
    ∀ (st st₂ : AppEnv),
      ((savePreferencesRun st).map Prod.fst = ["region"] ∨
        (savePreferencesRun st).map Prod.fst = ["region", "project_id"]) ∧
      ((savePreferencesRun st).map Prod.fst = ["region", "project_id"] →
        pyTruthy st.project_id = true ∧ pyTruthy st.envProjectId = false) ∧
      (st.region = st₂.region → st.project_id = st₂.project_id →
        st.envProjectId = st₂.envProjectId →
        savePreferencesRun st = savePreferencesRun st₂) := by
  intro st st₂
  refine ⟨?_, ?_, ?_⟩
  · unfold savePreferencesRun save_preferences
    split
    · right; rfl
    · left; rfl
  · unfold savePreferencesRun save_preferences
    split
    · rename_i hcond
      rw [Bool.and_eq_true, Bool.not_eq_true'] at hcond
      exact fun _ => hcond
    · intro habs
      simp at habs
  · intro h1 h2 h3
    unfold savePreferencesRun
    rw [h1, h2, h3]

/-- C9 witness: two runs with different credentials but the same region,
project id and environment write identical preference data, and the
`project_id` key is present exactly under the truthiness conditions. -/
theorem C9_preferences_credential_noninterference_witness :
    savePreferencesRun ⟨"keyA", "secA", "US", some "123", none⟩ =
      savePreferencesRun ⟨"keyB", "secB", "US", some "123", none⟩ ∧
    (pyTruthy (some "123") = true ∧ pyTruthy (none : Option String) = false) :=
  ⟨(C9_preferences_credential_noninterference
      ⟨"keyA", "secA", "US", some "123", none⟩
      ⟨"keyB", "secB", "US", some "123", none⟩).2.2 rfl rfl rfl,
   (C9_preferences_credential_noninterference
      ⟨"keyA", "secA", "US", some "123", none⟩
      ⟨"keyA", "secA", "US", some "123", none⟩).2.1 (by decide)⟩

/-- C10: an empty chart_id string behaves exactly like an absent chart_id:
the built request omits the `chart_id` parameter (a project-global
annotation request), and the whole call is identical under every network
behaviour; likewise an empty details string omits the `details`
parameter. -/
theorem C10_empty_chart_id_like_none :
    ∀ (pid : Int) (d l det : String) (net : AnnotationParams → HttpOutcome),
      create_annotation pid d l det (some "") net =
        create_annotation pid d l det none net ∧
      buildParams pid d l det (some "") = buildParams pid d l det none ∧
      (buildParams pid d l det (some "")).chart_id = none ∧
      (∀ cid, (buildParams pid d l "" cid).details = none) :=
  fun _ _ _ _ _ => ⟨rfl, rfl, rfl, fun _ => rfl⟩

end AmplitudeSpec
